import Mathlib

/-!
Shallow embedding of the fitness-tracker module (src/homework.py).

The Python module defines a base class Training, three subclasses
(Running, SportsWalking, Swimming), a value object InfoMessage with a
fixed message template, and a dispatcher read_package mapping the codes
RUN / WLK / SWM to the constructors.

Modelling choices:
- Python floats are modelled by ℚ: every constant in the source
  (0.65, 1.38, 1.79, 0.035, 0.278, 0.029, 1.1, ...) is a decimal
  literal and every claim formula is exact decimal arithmetic, so the
  rational semantics is the intended real-number reading of the code.
- Raised exceptions (ValueError in read_package, NotImplementedError in
  Training.get_spent_calories, TypeError on arity-mismatched positional
  construction) are modelled by Except PyError.
- The closed set of runtime classes is an inductive type; the base
  constructor models direct instantiation of the Training class itself.
- Methods are embedded in state-passing form (value, self-after-call):
  the Python method bodies contain no field assignment, so each returns
  its receiver unchanged; the pure projections are the usual interface.
-/

/-- The distinct exception classes the module can raise: ValueError from the
dispatcher, NotImplementedError from the abstract calorie method, TypeError
from arity-mismatched positional construction. -/
inductive PyError where
  | valueError (msg : String)
  | notImplementedError (msg : String)
  | typeError (msg : String)
  deriving DecidableEq, Repr

/-- Conversion constant M_IN_KM = 1000 of class Training. -/
def M_IN_KM : ℚ := 1000

/-- Conversion constant MIN_IN_HOUR = 60 of class Training. -/
def MIN_IN_HOUR : ℚ := 60

/-- Running coefficient CALORIES_MEAN_SPEED_MULTIPLIER = 18. -/
def CALORIES_MEAN_SPEED_MULTIPLIER : ℚ := 18

/-- Running coefficient CALORIES_MEAN_SPEED_SHIFT = 1.79. -/
def CALORIES_MEAN_SPEED_SHIFT : ℚ := 1.79

/-- SportsWalking conversion constant MSEC_IN_KMHOUR = 0.278. -/
def MSEC_IN_KMHOUR : ℚ := 0.278

/-- SportsWalking conversion constant SM_IN_M = 100. -/
def SM_IN_M : ℚ := 100

/-- SportsWalking coefficient CALORIES_WEIGHT_FIRST_MULTIPLIER = 0.035. -/
def CALORIES_WEIGHT_FIRST_MULTIPLIER : ℚ := 0.035

/-- SportsWalking coefficient CALORIES_WEIGHT_SECOND_MULTIPLIER = 0.029. -/
def CALORIES_WEIGHT_SECOND_MULTIPLIER : ℚ := 0.029

/-- Swimming coefficient CALORIES_SPEED_SHIFT = 1.1. -/
def CALORIES_SPEED_SHIFT : ℚ := 1.1

/-- Swimming coefficient CALORIES_SPEED_MULTIPLIER = 2. -/
def CALORIES_SPEED_MULTIPLIER : ℚ := 2

/-- The closed set of workout-record classes of the module: the base class
Training itself (action, duration, weight), Running (same fields),
SportsWalking (adds height), Swimming (adds length_pool and count_pool). -/
inductive Training where
  | base (action : ℤ) (duration weight : ℚ)
  | running (action : ℤ) (duration weight : ℚ)
  | sportsWalking (action : ℤ) (duration weight height : ℚ)
  | swimming (action : ℤ) (duration weight length_pool : ℚ) (count_pool : ℤ)
  deriving DecidableEq, Repr

/-- Field self.action, shared by every class. -/
def Training.action : Training → ℤ
  | .base a _ _ => a
  | .running a _ _ => a
  | .sportsWalking a _ _ _ => a
  | .swimming a _ _ _ _ => a

/-- Field self.duration, shared by every class. -/
def Training.duration : Training → ℚ
  | .base _ d _ => d
  | .running _ d _ => d
  | .sportsWalking _ d _ _ => d
  | .swimming _ d _ _ _ => d

/-- Field self.weight, shared by every class. -/
def Training.weight : Training → ℚ
  | .base _ _ w => w
  | .running _ _ w => w
  | .sportsWalking _ _ w _ => w
  | .swimming _ _ w _ _ => w

/-- Class constant LEN_STEP: 0.65 on Training (so also on Running and
SportsWalking, which do not override it), overridden to 1.38 on Swimming. -/
def Training.LEN_STEP : Training → ℚ
  | .swimming _ _ _ _ _ => 1.38
  | _ => 0.65

/-- Python class name type(self).__name__, used by show_training_info. -/
def Training.class_name : Training → String
  | .base _ _ _ => "Training"
  | .running _ _ _ => "Running"
  | .sportsWalking _ _ _ _ => "SportsWalking"
  | .swimming _ _ _ _ _ => "Swimming"

/-- The record with its action field replaced and every other field kept,
used to compare two records of the same class that differ only in action. -/
def Training.with_action : Training → ℤ → Training
  | .base _ d w, a => .base a d w
  | .running _ d w, a => .running a d w
  | .sportsWalking _ d w h, a => .sportsWalking a d w h
  | .swimming _ d w lp cp, a => .swimming a d w lp cp

/-- Method Training.get_distance in state-passing form:
action * LEN_STEP / M_IN_KM; the body assigns no field, so the receiver
is returned unchanged. Not overridden by any subclass. -/
def Training.get_distanceS (self : Training) : ℚ × Training :=
  (self.action * self.LEN_STEP / M_IN_KM, self)

/-- Value of a get_distance() call. -/
def Training.get_distance (self : Training) : ℚ :=
  self.get_distanceS.1

/-- Method get_mean_speed in state-passing form. The base formula
get_distance() / duration is inherited by Running and SportsWalking;
Swimming overrides it with length_pool * count_pool / M_IN_KM / duration. -/
def Training.get_mean_speedS (self : Training) : ℚ × Training :=
  match self with
  | .swimming _ duration _ length_pool count_pool =>
      (length_pool * count_pool / M_IN_KM / duration, self)
  | _ => (self.get_distance / self.duration, self)

/-- Value of a get_mean_speed() call. -/
def Training.get_mean_speed (self : Training) : ℚ :=
  self.get_mean_speedS.1

/-- Method get_spent_calories in state-passing form. On the base class the
body raises NotImplementedError; each subclass overrides it with its own
calorie formula, written exactly as in the source. -/
def Training.get_spent_caloriesS (self : Training) : Except PyError ℚ × Training :=
  match self with
  | .base _ _ _ =>
      (.error (.notImplementedError
        "В дочерних классах не описан метод get_spent_calories."), self)
  | .running _ duration weight =>
      (.ok ((CALORIES_MEAN_SPEED_MULTIPLIER * self.get_mean_speed
              + CALORIES_MEAN_SPEED_SHIFT)
            * weight / M_IN_KM
            * duration * MIN_IN_HOUR), self)
  | .sportsWalking _ duration weight height =>
      (.ok ((CALORIES_WEIGHT_FIRST_MULTIPLIER * weight
              + (self.get_mean_speed * MSEC_IN_KMHOUR) ^ 2
                / height * SM_IN_M
                * CALORIES_WEIGHT_SECOND_MULTIPLIER
                * weight)
            * duration * MIN_IN_HOUR), self)
  | .swimming _ duration weight _ _ =>
      (.ok ((self.get_mean_speed + CALORIES_SPEED_SHIFT)
            * CALORIES_SPEED_MULTIPLIER
            * weight
            * duration), self)

/-- Result of a get_spent_calories() call. -/
def Training.get_spent_calories (self : Training) : Except PyError ℚ :=
  self.get_spent_caloriesS.1

/-- The value object InfoMessage: the six reportable fields of a session. -/
structure InfoMessage where
  training_type : String
  duration : ℚ
  distance : ℚ
  speed : ℚ
  calories : ℚ
  deriving DecidableEq, Repr

/-- Method Training.show_training_info in state-passing form: it builds an
InfoMessage from type(self).__name__, self.duration and the three derived
metrics; a NotImplementedError raised by get_spent_calories propagates. -/
def Training.show_training_infoS (self : Training) : Except PyError InfoMessage × Training :=
  (match self.get_spent_calories with
   | .error e => .error e
   | .ok cal =>
      .ok ⟨self.class_name, self.duration, self.get_distance,
           self.get_mean_speed, cal⟩, self)

/-- Result of a show_training_info() call. -/
def Training.show_training_info (self : Training) : Except PyError InfoMessage :=
  self.show_training_infoS.1

/-- Three decimal digits with leading zeros, the fractional part of a
fixed-point rendering. -/
def pad3 (n : ℕ) : String :=
  if n < 10 then "00" ++ Nat.repr n
  else if n < 100 then "0" ++ Nat.repr n
  else Nat.repr n

/-- Rendering of a signed count of thousandths as a fixed-point numeral with
three decimals. -/
def formatInt3 (n : ℤ) : String :=
  if n < 0 then
    "-" ++ Nat.repr ((-n).toNat / 1000) ++ "." ++ pad3 ((-n).toNat % 1000)
  else
    Nat.repr (n.toNat / 1000) ++ "." ++ pad3 (n.toNat % 1000)

/-- Fixed-point rendering with exactly three decimals, the semantics of the
format specifier :.3f in the message template. CPython rounds the nearest
double to three decimals with ties to even; every value this module renders
in the claims is exactly representable with three decimals, so no tie can
arise and rounding the rational half-up agrees with CPython there. -/
def formatFixed3 (q : ℚ) : String :=
  formatInt3 ⌊q * 1000 + 1 / 2⌋

/-- Method InfoMessage.get_message: MESSAGE_TEMPLATE.format(**asdict(self)),
every numeric field rendered with the :.3f specifier. -/
def InfoMessage.get_message (self : InfoMessage) : String :=
  "Тип тренировки: " ++ self.training_type
    ++ "; Длительность: " ++ formatFixed3 self.duration
    ++ " ч.; Дистанция: " ++ formatFixed3 self.distance
    ++ " км; Ср. скорость: " ++ formatFixed3 self.speed
    ++ " км/ч; Потрачено ккал: " ++ formatFixed3 self.calories
    ++ "."

/-- Dispatcher read_package: the mapping RUN / WLK / SWM to the constructors
Running, SportsWalking, Swimming; an unknown code raises
ValueError("Неправильный тип тренировки."); a known code applies the data
list positionally to the constructor, and a wrong-length list makes the
construction step itself fail (TypeError in Python). -/
def read_package (workout_type : String) (data : List ℤ) : Except PyError Training :=
  if workout_type = "RUN" then
    match data with
    | [action, duration, weight] =>
        .ok (.running action (duration : ℚ) (weight : ℚ))
    | _ => .error (.typeError "Running() takes 3 positional arguments")
  else if workout_type = "WLK" then
    match data with
    | [action, duration, weight, height] =>
        .ok (.sportsWalking action (duration : ℚ) (weight : ℚ) (height : ℚ))
    | _ => .error (.typeError "SportsWalking() takes 4 positional arguments")
  else if workout_type = "SWM" then
    match data with
    | [action, duration, weight, length_pool, count_pool] =>
        .ok (.swimming action (duration : ℚ) (weight : ℚ) (length_pool : ℚ) count_pool)
    | _ => .error (.typeError "Swimming() takes 5 positional arguments")
  else
    .error (.valueError "Неправильный тип тренировки.")

/-! ## Helper lemmas -/

/-- Evaluation rule for the three-decimal formatter: once the rounded count of
thousandths is pinned by the floor bounds, the rendering is that of the pinned
integer. -/
theorem formatFixed3_eval (q : ℚ) (n : ℤ)
    (h : (n : ℚ) ≤ q * 1000 + 1 / 2 ∧ q * 1000 + 1 / 2 < n + 1) :
    formatFixed3 q = formatInt3 n := by
  rw [formatFixed3, Int.floor_eq_iff.mpr h]

/-- The dispatcher applied to the package RUN [15000, 1, 75] yields a Running
record with the literal rational fields. -/
theorem read_package_run :
    read_package "RUN" [15000, 1, 75] = Except.ok (Training.running 15000 1 75) := by
  norm_num [read_package]

/-- The summary of the Running record 15000 steps, 1 hour, 75 kg: its distance
and mean speed are 9.75 km and 9.75 km/h and its calories 797.805. -/
theorem show_training_info_run :
    Training.show_training_info (Training.running 15000 1 75)
      = Except.ok ⟨"Running", 1, 39 / 4, 39 / 4, 159561 / 200⟩ := by
  rw [Training.show_training_info, Training.show_training_infoS]
  norm_num [Training.get_spent_calories, Training.get_spent_caloriesS,
    Training.get_mean_speed, Training.get_mean_speedS, Training.get_distance,
    Training.get_distanceS, Training.duration, Training.action,
    Training.class_name, Training.LEN_STEP, M_IN_KM, MIN_IN_HOUR,
    CALORIES_MEAN_SPEED_MULTIPLIER, CALORIES_MEAN_SPEED_SHIFT,
    InfoMessage.mk.injEq]

/-- Rendering the summary of the Running record 15000 steps, 1 hour, 75 kg. -/
theorem get_message_run :
    InfoMessage.get_message ⟨"Running", 1, 39 / 4, 39 / 4, 159561 / 200⟩
      = "Тип тренировки: Running; Длительность: 1.000 ч.; Дистанция: 9.750 км; Ср. скорость: 9.750 км/ч; Потрачено ккал: 797.805." := by
  rw [InfoMessage.get_message]
  rw [formatFixed3_eval 1 1000 (by norm_num),
    formatFixed3_eval (39 / 4) 9750 (by norm_num),
    formatFixed3_eval (159561 / 200) 797805 (by norm_num)]
  decide

/-- The full dispatcher round trip on RUN [15000, 1, 75] down to the message
string the code actually produces. -/
theorem run_roundtrip_message :
    ((read_package "RUN" [15000, 1, 75]).bind Training.show_training_info).map
        InfoMessage.get_message
      = Except.ok "Тип тренировки: Running; Длительность: 1.000 ч.; Дистанция: 9.750 км; Ср. скорость: 9.750 км/ч; Потрачено ккал: 797.805." := by
  rw [read_package_run]
  show (Training.show_training_info (Training.running 15000 1 75)).map
      InfoMessage.get_message = _
  rw [show_training_info_run]
  show Except.ok (InfoMessage.get_message ⟨"Running", 1, 39 / 4, 39 / 4, 159561 / 200⟩) = _
  rw [get_message_run]

/-! ## Claims -/

/-- C1 counterexample: the round trip read_package("RUN", [15000, 1, 75]) then
show_training_info().get_message() does not produce the string the claim pins,
whose calorie field reads 741.825. -/
theorem C1_counterexample :
    ((read_package "RUN" [15000, 1, 75]).bind Training.show_training_info).map
        InfoMessage.get_message
      ≠ Except.ok "Тип тренировки: Running; Длительность: 1.000 ч.; Дистанция: 9.750 км; Ср. скорость: 9.750 км/ч; Потрачено ккал: 741.825." := by
  rw [run_roundtrip_message]
  intro h
  have h2 := Except.ok.inj h
  exact absurd h2 (by decide)

/-- C1 amended: the round trip read_package("RUN", [15000, 1, 75]) then
show_training_info().get_message() yields exactly the fixed template with
type Running, duration 1.000 h, distance 9.750 km, speed 9.750 km/h and
calories 797.805. -/
theorem C1_run_roundtrip :
    ((read_package "RUN" [15000, 1, 75]).bind Training.show_training_info).map
        InfoMessage.get_message
      = Except.ok "Тип тренировки: Running; Длительность: 1.000 ч.; Дистанция: 9.750 км; Ср. скорость: 9.750 км/ч; Потрачено ккал: 797.805." :=
  run_roundtrip_message

/-- C2: on every Swimming record with nonzero duration the mean speed is
length_pool * count_pool / 1000 / duration (the formula does not mention
action) while the distance is still the step-based action * 1.38 / 1000; on
every Running and SportsWalking record with nonzero duration the mean speed
is get_distance() / duration. -/
theorem C2_mean_speed_contract
    (a : ℤ) (d w lp : ℚ) (cp : ℤ) (aR : ℤ) (dR wR : ℚ) (aW : ℤ) (dW wW hW : ℚ)
    (hd : d ≠ 0) (hdR : dR ≠ 0) (hdW : dW ≠ 0) :
    Training.get_mean_speed (.swimming a d w lp cp) = lp * cp / 1000 / d ∧
    Training.get_distance (.swimming a d w lp cp) = a * 1.38 / 1000 ∧
    Training.get_mean_speed (.running aR dR wR)
      = Training.get_distance (.running aR dR wR) / dR ∧
    Training.get_mean_speed (.sportsWalking aW dW wW hW)
      = Training.get_distance (.sportsWalking aW dW wW hW) / dW := by
  refine ⟨?_, ?_, ?_, ?_⟩ <;>
    simp [Training.get_mean_speed, Training.get_mean_speedS,
      Training.get_distance, Training.get_distanceS, Training.duration,
      Training.action, Training.LEN_STEP, M_IN_KM]

/-- C2 witness at the driver packages SWM [720, 1, 80, 25, 40],
RUN [15000, 1, 75] and WLK [9000, 1, 75, 180]. -/
theorem C2_witness :
    Training.get_mean_speed (.swimming 720 1 80 25 40) = 25 * 40 / 1000 / 1 ∧
    Training.get_distance (.swimming 720 1 80 25 40) = 720 * 1.38 / 1000 ∧
    Training.get_mean_speed (.running 15000 1 75)
      = Training.get_distance (.running 15000 1 75) / 1 ∧
    Training.get_mean_speed (.sportsWalking 9000 1 75 180)
      = Training.get_distance (.sportsWalking 9000 1 75 180) / 1 :=
  C2_mean_speed_contract 720 1 80 25 40 15000 1 75 9000 1 75 180
    (by norm_num) (by norm_num) (by norm_num)

/-- C3: on every record of every class, get_distance() is
action * LEN_STEP / 1000, with the class constant LEN_STEP equal to 0.65 on
Running and SportsWalking and 1.38 on Swimming. -/
theorem C3_distance_contract (t : Training) :
    Training.get_distance t = t.action * t.LEN_STEP / 1000 ∧
    (∀ a : ℤ, ∀ d w : ℚ, Training.LEN_STEP (.running a d w) = 0.65) ∧
    (∀ a : ℤ, ∀ d w h : ℚ, Training.LEN_STEP (.sportsWalking a d w h) = 0.65) ∧
    (∀ a : ℤ, ∀ d w lp : ℚ, ∀ cp : ℤ,
      Training.LEN_STEP (.swimming a d w lp cp) = 1.38) := by
  refine ⟨?_, fun a d w => rfl, fun a d w h => rfl, fun a d w lp cp => rfl⟩
  simp [Training.get_distance, Training.get_distanceS, M_IN_KM]

/-- C4: on every Running record with nonzero duration, get_spent_calories()
returns (18 * mean_speed + 1.79) * weight / 1000 * duration * 60 with
mean_speed the record's get_mean_speed(). -/
theorem C4_running_calories (a : ℤ) (d w : ℚ) (hd : d ≠ 0) :
    Training.get_spent_calories (.running a d w)
      = Except.ok ((18 * Training.get_mean_speed (.running a d w) + 1.79)
          * w / 1000 * d * 60) := by
  simp [Training.get_spent_calories, Training.get_spent_caloriesS,
    CALORIES_MEAN_SPEED_MULTIPLIER, CALORIES_MEAN_SPEED_SHIFT, M_IN_KM,
    MIN_IN_HOUR]

/-- C4 witness at the driver package RUN [15000, 1, 75]. -/
theorem C4_witness :
    Training.get_spent_calories (.running 15000 1 75)
      = Except.ok ((18 * Training.get_mean_speed (.running 15000 1 75) + 1.79)
          * 75 / 1000 * 1 * 60) :=
  C4_running_calories 15000 1 75 (by norm_num)

/-- C5: on every SportsWalking record with nonzero duration and nonzero
height, get_spent_calories() returns
(0.035 * weight + (mean_speed * 0.278)^2 / height * 100 * 0.029 * weight)
* duration * 60 with mean_speed the record's get_mean_speed(). -/
theorem C5_walking_calories (a : ℤ) (d w h : ℚ) (hd : d ≠ 0) (hh : h ≠ 0) :
    Training.get_spent_calories (.sportsWalking a d w h)
      = Except.ok ((0.035 * w
          + (Training.get_mean_speed (.sportsWalking a d w h) * 0.278) ^ 2
            / h * 100 * 0.029 * w) * d * 60) := by
  simp [Training.get_spent_calories, Training.get_spent_caloriesS,
    CALORIES_WEIGHT_FIRST_MULTIPLIER, CALORIES_WEIGHT_SECOND_MULTIPLIER,
    MSEC_IN_KMHOUR, SM_IN_M, M_IN_KM, MIN_IN_HOUR]

/-- C5 witness at the driver package WLK [9000, 1, 75, 180]. -/
theorem C5_witness :
    Training.get_spent_calories (.sportsWalking 9000 1 75 180)
      = Except.ok ((0.035 * 75
          + (Training.get_mean_speed (.sportsWalking 9000 1 75 180) * 0.278) ^ 2
            / 180 * 100 * 0.029 * 75) * 1 * 60) :=
  C5_walking_calories 9000 1 75 180 (by norm_num) (by norm_num)

/-- C6: on every Swimming record with nonzero duration, get_spent_calories()
returns (mean_speed + 1.1) * 2 * weight * duration, where mean_speed is the
lap-based overridden get_mean_speed(), namely
length_pool * count_pool / 1000 / duration. -/
theorem C6_swimming_calories (a : ℤ) (d w lp : ℚ) (cp : ℤ) (hd : d ≠ 0) :
    Training.get_spent_calories (.swimming a d w lp cp)
      = Except.ok ((Training.get_mean_speed (.swimming a d w lp cp) + 1.1)
          * 2 * w * d) ∧
    Training.get_mean_speed (.swimming a d w lp cp) = lp * cp / 1000 / d := by
  refine ⟨?_, ?_⟩ <;>
    simp [Training.get_spent_calories, Training.get_spent_caloriesS,
      Training.get_mean_speed, Training.get_mean_speedS,
      CALORIES_SPEED_SHIFT, CALORIES_SPEED_MULTIPLIER, M_IN_KM]

/-- C6 witness at the driver package SWM [720, 1, 80, 25, 40]. -/
theorem C6_witness :
    Training.get_spent_calories (.swimming 720 1 80 25 40)
      = Except.ok ((Training.get_mean_speed (.swimming 720 1 80 25 40) + 1.1)
          * 2 * 80 * 1) ∧
    Training.get_mean_speed (.swimming 720 1 80 25 40) = 25 * 40 / 1000 / 1 :=
  C6_swimming_calories 720 1 80 25 40 (by norm_num)

/-- C7: on any activity code other than RUN, WLK and SWM the dispatcher fails
with the ValueError carrying the human-readable message and constructs no
record, while each recognized code applies its argument list positionally to
the matching constructor. -/
theorem C7_dispatcher (wt : String) (data : List ℤ)
    (h1 : wt ≠ "RUN") (h2 : wt ≠ "WLK") (h3 : wt ≠ "SWM") :
    read_package wt data = Except.error (.valueError "Неправильный тип тренировки.") ∧
    (∀ rec : Training, read_package wt data ≠ Except.ok rec) ∧
    (∀ a d w : ℤ, read_package "RUN" [a, d, w]
      = Except.ok (.running a (d : ℚ) (w : ℚ))) ∧
    (∀ a d w h : ℤ, read_package "WLK" [a, d, w, h]
      = Except.ok (.sportsWalking a (d : ℚ) (w : ℚ) (h : ℚ))) ∧
    (∀ a d w lp cp : ℤ, read_package "SWM" [a, d, w, lp, cp]
      = Except.ok (.swimming a (d : ℚ) (w : ℚ) (lp : ℚ) cp)) := by
  have herr : read_package wt data
      = Except.error (.valueError "Неправильный тип тренировки.") := by
    simp [read_package, h1, h2, h3]
  exact ⟨herr, fun rec hok => by rw [herr] at hok; exact Except.noConfusion hok,
    fun a d w => rfl, fun a d w h => rfl, fun a d w lp cp => rfl⟩

/-- C7 witness at the unknown code XYZ with the argument list [1, 2, 3]. -/
theorem C7_witness :
    read_package "XYZ" [1, 2, 3]
      = Except.error (.valueError "Неправильный тип тренировки.") ∧
    (∀ rec : Training, read_package "XYZ" [1, 2, 3] ≠ Except.ok rec) ∧
    (∀ a d w : ℤ, read_package "RUN" [a, d, w]
      = Except.ok (.running a (d : ℚ) (w : ℚ))) ∧
    (∀ a d w h : ℤ, read_package "WLK" [a, d, w, h]
      = Except.ok (.sportsWalking a (d : ℚ) (w : ℚ) (h : ℚ))) ∧
    (∀ a d w lp cp : ℤ, read_package "SWM" [a, d, w, lp, cp]
      = Except.ok (.swimming a (d : ℚ) (w : ℚ) (lp : ℚ) cp)) :=
  C7_dispatcher "XYZ" [1, 2, 3] (by decide) (by decide) (by decide)

/-- C8: get_spent_calories() on a directly instantiated base record always
fails with the NotImplementedError; this error differs from every ValueError
and the call never returns a value. -/
theorem C8_base_calories (a : ℤ) (d w : ℚ) :
    Training.get_spent_calories (.base a d w)
      = Except.error (.notImplementedError
          "В дочерних классах не описан метод get_spent_calories.") ∧
    (∀ s : String, PyError.notImplementedError
          "В дочерних классах не описан метод get_spent_calories."
        ≠ PyError.valueError s) ∧
    (∀ q : ℚ, Training.get_spent_calories (.base a d w) ≠ Except.ok q) := by
  refine ⟨rfl, fun s hmix => PyError.noConfusion hmix, fun q hok => ?_⟩
  have hbase : Training.get_spent_calories (.base a d w)
      = Except.error (PyError.notImplementedError
          "В дочерних классах не описан метод get_spent_calories.") := rfl
  rw [hbase] at hok
  exact Except.noConfusion hok

/-- C9: for every record, get_distance() is zero when the action field is
zero and strictly increases with the action field, the other fields held
fixed. -/
theorem C9_distance_monotone (t : Training) (a1 a2 : ℤ) (hlt : a1 < a2) :
    Training.get_distance (t.with_action 0) = 0 ∧
    Training.get_distance (t.with_action a1)
      < Training.get_distance (t.with_action a2) := by
  have hcast : (a1 : ℚ) < (a2 : ℚ) := by exact_mod_cast hlt
  have key : ∀ c : ℚ, 0 < c → (a1 : ℚ) * c / 1000 < (a2 : ℚ) * c / 1000 :=
    fun c hc => (div_lt_div_iff_of_pos_right (by norm_num)).mpr
      (mul_lt_mul_of_pos_right hcast hc)
  cases t with
  | base a d w =>
      refine ⟨by simp [Training.get_distance, Training.get_distanceS,
        Training.with_action, Training.action, Training.LEN_STEP, M_IN_KM], ?_⟩
      simpa [Training.get_distance, Training.get_distanceS,
        Training.with_action, Training.action, Training.LEN_STEP, M_IN_KM]
        using key 0.65 (by norm_num)
  | running a d w =>
      refine ⟨by simp [Training.get_distance, Training.get_distanceS,
        Training.with_action, Training.action, Training.LEN_STEP, M_IN_KM], ?_⟩
      simpa [Training.get_distance, Training.get_distanceS,
        Training.with_action, Training.action, Training.LEN_STEP, M_IN_KM]
        using key 0.65 (by norm_num)
  | sportsWalking a d w h =>
      refine ⟨by simp [Training.get_distance, Training.get_distanceS,
        Training.with_action, Training.action, Training.LEN_STEP, M_IN_KM], ?_⟩
      simpa [Training.get_distance, Training.get_distanceS,
        Training.with_action, Training.action, Training.LEN_STEP, M_IN_KM]
        using key 0.65 (by norm_num)
  | swimming a d w lp cp =>
      refine ⟨by simp [Training.get_distance, Training.get_distanceS,
        Training.with_action, Training.action, Training.LEN_STEP, M_IN_KM], ?_⟩
      simpa [Training.get_distance, Training.get_distanceS,
        Training.with_action, Training.action, Training.LEN_STEP, M_IN_KM]
        using key 1.38 (by norm_num)

/-- C9 witness on a Running record at actions 0, 1 and 2. -/
theorem C9_witness :
    Training.get_distance (Training.with_action (.running 7 1 75) 0) = 0 ∧
    Training.get_distance (Training.with_action (.running 7 1 75) 1)
      < Training.get_distance (Training.with_action (.running 7 1 75) 2) :=
  C9_distance_monotone (.running 7 1 75) 1 2 (by norm_num)

/-- C10: every method call leaves the record unchanged (the state-passing
embeddings return the receiver as is), and a second call on the returned
record yields the same value as the first. -/
theorem C10_purity (t : Training) :
    t.get_distanceS.2 = t ∧ t.get_mean_speedS.2 = t ∧
    t.get_spent_caloriesS.2 = t ∧ t.show_training_infoS.2 = t ∧
    (t.get_distanceS.2.get_distanceS.1 = t.get_distanceS.1) ∧
    (t.get_mean_speedS.2.get_mean_speedS.1 = t.get_mean_speedS.1) ∧
    (t.get_spent_caloriesS.2.get_spent_caloriesS.1 = t.get_spent_caloriesS.1) ∧
    (t.show_training_infoS.2.show_training_infoS.1 = t.show_training_infoS.1) := by
  cases t <;> exact ⟨rfl, rfl, rfl, rfl, rfl, rfl, rfl, rfl⟩
